import Mathlib

set_option autoImplicit false

namespace FastStream

/-- Modelled from the spec: the `AckPolicy` enum (source: faststream/middlewares,
not under src/). Spec section 3 names exactly four policies: `AckFirst`,
`RejectOnError`, `ManualAck`, `DoNothing`. -/
inductive AckPolicy where
  | ackFirst
  | rejectOnError
  | manualAck
  | doNothing
deriving DecidableEq, Repr

/-- Configuration (setup) errors raised by the factory validators
(`faststream.exceptions.SetupError`); each constructor stands for one
distinct error message in the source. -/
inductive SetupError where
  /-- "You cannot use deprecated auto_commit and ack_policy simultaneously." -/
  | autoCommitAndAckPolicy
  /-- "You cannot use deprecated no_ack and ack_policy simultaneously." -/
  | noAckAndAckPolicy
  /-- "Max workers not work with manual commit mode." -/
  | maxWorkersWithManualCommit
  /-- "You cannot setup key with batch publisher." -/
  | batchPublisherKey
deriving DecidableEq, Repr

/-- The Python sentinel `EMPTY` marking "caller did not specify" is embedded as
`Option.none`; `x is not EMPTY` becomes `Option.isSome`. -/
abbrev Unset (α : Type) : Type := Option α

/-- Embedding of `_validate_input_for_misconfigure`
(src/faststream/confluent/subscriber/factory.py, lines 205-242).
The Python function sequentially reassigns its local `ack_policy`; the local
reassignments are threaded through `ap1`/`ap2`.  The final guard is embedded
literally: the source tests `AckPolicy.ACK_FIRST is not AckPolicy.ACK_FIRST`
(line 240), a condition on two identical enum members, not on `ack_policy`. -/
def confluentValidateInputForMisconfigure (ackPolicy : Unset AckPolicy)
    (autoCommit : Unset Bool) (noAck : Unset Bool) (maxWorkers : Nat) :
    Except SetupError Unit :=
  match autoCommit with
  | some b =>
    if ackPolicy.isSome then
      Except.error SetupError.autoCommitAndAckPolicy
    else
      let ap1 : Unset AckPolicy :=
        some (if b then AckPolicy.ackFirst else AckPolicy.rejectOnError)
      goNoAck ap1
  | none => goNoAck ackPolicy
where
  /-- The `no_ack` branch and the trailing guards of the validator. -/
  goNoAck (ap1 : Unset AckPolicy) : Except SetupError Unit :=
    match noAck with
    | some b =>
      if ap1.isSome then
        Except.error SetupError.noAckAndAckPolicy
      else
        let ap2 : Unset AckPolicy :=
          if b then some AckPolicy.doNothing else none
        goFinal ap2
    | none => goFinal ap1
  /-- The `if ack_policy is EMPTY` default and the (vacuous) max-workers guard. -/
  goFinal (ap2 : Unset AckPolicy) : Except SetupError Unit :=
    let _ap3 : AckPolicy := ap2.getD AckPolicy.ackFirst
    if AckPolicy.ackFirst ≠ AckPolicy.ackFirst ∧ maxWorkers > 1 then
      Except.error SetupError.maxWorkersWithManualCommit
    else
      Except.ok ()

/-- The three concrete subscriber variants returned by the confluent factory. -/
inductive SubscriberVariant where
  | defaultSub
  | batchSub
  | concurrentSub
deriving DecidableEq, Repr

/-- Observable outcome of confluent `create_subscriber`: the resolved ack
policy stored in the base configs, whether `enable_auto_commit` was forced
into the connection data, and which variant class was instantiated. -/
structure ConfluentSubscriberResult where
  ackPolicy : AckPolicy
  enableAutoCommit : Bool
  variant : SubscriberVariant
deriving DecidableEq, Repr

/-- Embedding of `create_subscriber`
(src/faststream/confluent/subscriber/factory.py, lines 112-202): validation,
then resolution of the deprecated toggles onto an `AckPolicy`, the
`ACK_FIRST` to auto-commit conversion, and the variant selection. -/
def confluentCreateSubscriber (batch : Bool) (autoCommit : Unset Bool)
    (noAck : Unset Bool) (ackPolicy : Unset AckPolicy) (maxWorkers : Nat) :
    Except SetupError ConfluentSubscriberResult :=
  match confluentValidateInputForMisconfigure ackPolicy autoCommit noAck maxWorkers with
  | Except.error e => Except.error e
  | Except.ok () =>
    let ap1 : Unset AckPolicy :=
      match autoCommit with
      | some b => some (if b then AckPolicy.ackFirst else AckPolicy.rejectOnError)
      | none => ackPolicy
    let ap2 : Unset AckPolicy :=
      match noAck with
      | some b => if b then some AckPolicy.doNothing else none
      | none => ap1
    let ap3 : AckPolicy := ap2.getD AckPolicy.ackFirst
    let ap4 : AckPolicy :=
      if ap3 = AckPolicy.ackFirst then AckPolicy.doNothing else ap3
    let autoCommitForced : Bool := decide (ap3 = AckPolicy.ackFirst)
    Except.ok
      { ackPolicy := ap4
      , enableAutoCommit := autoCommitForced
      , variant :=
          if batch then SubscriberVariant.batchSub
          else if maxWorkers > 1 then SubscriberVariant.concurrentSub
          else SubscriberVariant.defaultSub }

/-- Embedding of `_validate_input_for_misconfigure`
(src/faststream/rabbit/subscriber/factory.py, lines 81-96): the only check is
that the deprecated `no_ack` toggle and an explicit `ack_policy` are not both
supplied. -/
def rabbitValidateInputForMisconfigure (ackPolicy : Unset AckPolicy)
    (noAck : Unset Bool) : Except SetupError Unit :=
  match noAck with
  | some _ =>
    if ackPolicy.isSome then Except.error SetupError.noAckAndAckPolicy
    else Except.ok ()
  | none => Except.ok ()

/-- The two concrete publisher variants returned by the kafka factory. -/
inductive PublisherVariant where
  | defaultPub
  | batchPub
deriving DecidableEq, Repr

/-- Python truthiness of an optional bytes value (`if key:`): `None` and the
empty byte string are falsy. Bytes are embedded as `List Nat`. -/
def pyBytesTruthy (key : Option (List Nat)) : Bool :=
  match key with
  | none => false
  | some k => !k.isEmpty

/-- Embedding of kafka `create_publisher`
(src/faststream/kafka/publisher/factory.py, lines 91-141): with `batch=True`
and a truthy `key`, a `SetupError` is raised before any publisher object (and
hence any send) exists; otherwise the corresponding variant is built. -/
def kafkaCreatePublisher (batch : Bool) (key : Option (List Nat)) :
    Except SetupError PublisherVariant :=
  if batch then
    if pyBytesTruthy key then Except.error SetupError.batchPublisherKey
    else Except.ok PublisherVariant.batchPub
  else Except.ok PublisherVariant.defaultPub

/-- Outcome of one `get_msg` call inside the kafka consumption loop
(src/faststream/kafka/subscriber/usecase.py, `_consume`, lines 170-192).
`msg` is a truthy fetch result; `emptyFetch` a falsy one (an empty batch);
`kafkaError` a transient `aiokafka.errors.KafkaError`; `consumerStopped` the
terminal `ConsumerStoppedError`; `otherError` any exception the loop does not
catch (it would propagate out of the task). -/
inductive KafkaFetch (α : Type) where
  | msg : α → KafkaFetch α
  | emptyFetch : KafkaFetch α
  | kafkaError : KafkaFetch α
  | consumerStopped : KafkaFetch α
  | otherError : KafkaFetch α
deriving DecidableEq, Repr

/-- Outcome of one `get_msg` call inside the confluent consumption loop
(src/faststream/confluent/subscriber/usecase.py, `_consume`, lines 157-174).
The only exception type that loop distinguishes is `KafkaException`. -/
inductive ConfluentFetch (α : Type) where
  | msg : α → ConfluentFetch α
  | emptyFetch : ConfluentFetch α
  | kafkaException : ConfluentFetch α
deriving DecidableEq, Repr

/-- Observable event of one consumption-loop iteration: a backoff sleep of a
given number of time units (`anyio.sleep(5)`) or the delivery of a message to
the handler path (`consume_one`). -/
inductive LoopEvent (α : Type) where
  | sleep : Nat → LoopEvent α
  | deliver : α → LoopEvent α
deriving DecidableEq, Repr

/-- How a run of the consumption loop ended: the supplied fetch outcomes were
exhausted while the loop was still running (`self.running` would be consulted
again), the loop function returned cleanly, or an uncaught exception
propagated out of the loop. -/
inductive LoopExit where
  | fetchesExhausted
  | returned
  | raised
deriving DecidableEq, Repr

/-- Trace of a consumption-loop run: the events in order, how the loop ended,
and the final value of the `connected` flag (`connected = false` is the
degraded state). -/
structure LoopRun (α : Type) where
  events : List (LoopEvent α)
  exit : LoopExit
  connected : Bool
deriving DecidableEq, Repr

/-- Embedding of kafka `LogicSubscriber._consume`
(src/faststream/kafka/subscriber/usecase.py, lines 170-192), run over a finite
script of fetch outcomes (one per loop iteration, `self.running` held true
throughout). On `KafkaError`: clear `connected`, sleep 5, continue. On
`ConsumerStoppedError`: return. On success: set `connected`, deliver the
message if truthy. -/
def kafkaConsume {α : Type} : List (KafkaFetch α) → Bool → LoopRun α
  | [], connected => ⟨[], LoopExit.fetchesExhausted, connected⟩
  | KafkaFetch.kafkaError :: rest, _ =>
    let r := kafkaConsume rest false
    ⟨LoopEvent.sleep 5 :: r.events, r.exit, r.connected⟩
  | KafkaFetch.consumerStopped :: _, connected => ⟨[], LoopExit.returned, connected⟩
  | KafkaFetch.otherError :: _, connected => ⟨[], LoopExit.raised, connected⟩
  | KafkaFetch.emptyFetch :: rest, _ => kafkaConsume rest true
  | KafkaFetch.msg m :: rest, _ =>
    let r := kafkaConsume rest true
    ⟨LoopEvent.deliver m :: r.events, r.exit, r.connected⟩

/-- Embedding of confluent `LogicSubscriber._consume`
(src/faststream/confluent/subscriber/usecase.py, lines 157-174). On
`KafkaException`: clear `connected`, sleep 5, continue. On success: set
`connected`, deliver if the message is not `None`. -/
def confluentConsume {α : Type} : List (ConfluentFetch α) → Bool → LoopRun α
  | [], connected => ⟨[], LoopExit.fetchesExhausted, connected⟩
  | ConfluentFetch.kafkaException :: rest, _ =>
    let r := confluentConsume rest false
    ⟨LoopEvent.sleep 5 :: r.events, r.exit, r.connected⟩
  | ConfluentFetch.emptyFetch :: rest, _ => confluentConsume rest true
  | ConfluentFetch.msg m :: rest, _ =>
    let r := confluentConsume rest true
    ⟨LoopEvent.deliver m :: r.events, r.exit, r.connected⟩

/-- Fetch outcomes of the kafka loop that neither terminate the loop nor
escape it: messages, empty fetches and transient errors. -/
def kafkaFetchBenign {α : Type} : KafkaFetch α → Bool
  | KafkaFetch.consumerStopped => false
  | KafkaFetch.otherError => false
  | _ => true

/-- Errors surfaced by `get_one` at call time: the subscriber was not started,
or handlers are registered (both are `assert` statements in the source, raised
when `get_one` is invoked, not during subscriber creation). -/
inductive GetOneError where
  | notStarted
  | handlersRegistered
deriving DecidableEq, Repr

/-- Embedding of confluent `LogicSubscriber.get_one`
(src/faststream/confluent/subscriber/usecase.py, lines 116-137). `calls` is
the list of registered handlers, `consumer` is `None` before `start`; when
started, it carries the result of `consumer.getone(timeout)` (`none` models a
fetch timeout). `processOne` stands for the parse/decode step of
`process_msg` (faststream/_internal/subscriber/utils.py, not under src/). -/
def confluentGetOne {η α β : Type} (calls : List η) (consumer : Option (Option α))
    (processOne : α → β) : Except GetOneError (Option β) :=
  match consumer with
  | none => Except.error GetOneError.notStarted
  | some fetched =>
    if calls.isEmpty then Except.ok (fetched.map processOne)
    else Except.error GetOneError.handlersRegistered

/-- Embedding of NATS `CoreSubscriber.get_one`
(src/faststream/nats/subscriber/usecases/core_subscriber.py, lines 48-82).
`nextMsg` is the result of `fetch_sub.next_msg(timeout)`; `none` models the
`TimeoutError` branch which returns `None` to the caller. -/
def natsCoreGetOne {η α β : Type} (calls : List η) (nextMsg : Option α)
    (processOne : α → β) : Except GetOneError (Option β) :=
  if calls.isEmpty then Except.ok (nextMsg.map processOne)
  else Except.error GetOneError.handlersRegistered

/-- The polling loop of redis `_ListHandlerMixin.get_one`: repeated
`lpop` calls until one returns a value or the `move_on_after` window closes
(modelled by exhausting the finite list of poll results). -/
def redisPollLoop {α : Type} : List (Option α) → Option α
  | [] => none
  | some m :: _ => some m
  | none :: rest => redisPollLoop rest

/-- Embedding of redis `_ListHandlerMixin.get_one`
(src/faststream/redis/subscriber/usecases/list_subscriber.py, lines 81-119).
Raw list entries are byte strings (`List Nat`); after the polling window the
source checks `if not raw_message` (both `None` and an empty byte string are
falsy) and returns `None`, otherwise parses and returns the message. -/
def redisListGetOne {η β : Type} (calls : List η) (client : Option Unit)
    (polls : List (Option (List Nat))) (processOne : List Nat → β) :
    Except GetOneError (Option β) :=
  match client with
  | none => Except.error GetOneError.notStarted
  | some _ =>
    if calls.isEmpty then
      match redisPollLoop polls with
      | none => Except.ok none
      | some raw =>
        if raw.isEmpty then Except.ok none
        else Except.ok (some (processOne raw))
    else Except.error GetOneError.handlersRegistered

/-- Confluent `TopicPartition` fields copied by `add_prefix`
(src/faststream/confluent/subscriber/usecase.py, lines 194-206). -/
structure ConfluentTopicPartition where
  topic : String
  partition : Nat
  offset : Int
  metadata : String
  leaderEpoch : Option Int
deriving DecidableEq, Repr

/-- Destination names owned by a confluent subscriber: declared topics and
explicit partition assignments. -/
structure ConfluentDestinations where
  topics : List String
  partitions : List ConfluentTopicPartition
deriving DecidableEq, Repr

/-- Embedding of confluent `LogicSubscriber.add_prefix`
(src/faststream/confluent/subscriber/usecase.py, lines 194-206): every topic
and every partition topic gets the prefix prepended; the other partition
fields are copied unchanged. -/
def addPrefixConfluent (pre : String) (s : ConfluentDestinations) :
    ConfluentDestinations :=
  { topics := s.topics.map (fun t => pre ++ t)
  , partitions := s.partitions.map (fun p =>
      { topic := pre ++ p.topic
      , partition := p.partition
      , offset := p.offset
      , metadata := p.metadata
      , leaderEpoch := p.leaderEpoch }) }

/-- Kafka `TopicPartition` fields rebuilt by `add_prefix`
(src/faststream/kafka/subscriber/usecase.py, lines 217-226). -/
structure KafkaTopicPartition where
  topic : String
  partition : Nat
deriving DecidableEq, Repr

/-- Destination names owned by a kafka subscriber. -/
structure KafkaDestinations where
  topics : List String
  partitions : List KafkaTopicPartition
deriving DecidableEq, Repr

/-- Embedding of kafka `LogicSubscriber.add_prefix`
(src/faststream/kafka/subscriber/usecase.py, lines 217-226). -/
def addPrefixKafka (pre : String) (s : KafkaDestinations) : KafkaDestinations :=
  { topics := s.topics.map (fun t => pre ++ t)
  , partitions := s.partitions.map (fun p =>
      { topic := pre ++ p.topic, partition := p.partition }) }

/-- Embedding of redis `_ListHandlerMixin.add_prefix`
(src/faststream/redis/subscriber/usecases/list_subscriber.py, lines 161-164):
the list name of a deep copy of `list_sub` is rewritten. -/
def addPrefixRedisList (pre : String) (listName : String) : String :=
  pre ++ listName

/-- A Python `dict[str, str]` embedded as an association list with unique
insertion order; `lookupKey` returns the value of the first entry with the
given key. -/
abbrev PyDict : Type := List (String × String)

/-- Lookup of a key in an embedded Python dict. -/
def lookupKey (d : PyDict) (k : String) : Option String :=
  (d.find? (fun p => decide (p.1 = k))).map Prod.snd

/-- Embedding of the Python dict merge `a | b`: the result keeps the entries
of `a` (with the value overridden by `b` where the key also occurs in `b`)
followed by the entries of `b` whose keys are not in `a`. The right-hand
operand wins on every conflicting key, as in Python. -/
def pyDictMerge (a b : PyDict) : PyDict :=
  a.map (fun p =>
    match lookupKey b p.1 with
    | some v => (p.1, v)
    | none => p)
  ++ b.filter (fun p => (lookupKey a p.1).isNone)

/-- Python truthiness `x or y` for an optional string `x` (default `None`):
both `None` and the empty string are falsy. -/
def pyOrOptStr (a : Option String) (dflt : String) : String :=
  match a with
  | some s => if s = "" then dflt else s
  | none => dflt

/-- Python truthiness `x or y` on plain strings (`topic or self.topic`). -/
def pyOrStr (a dflt : String) : String :=
  if a = "" then dflt else a

/-- Python truthiness `key or self.key` on optional bytes: `None` and empty
bytes are falsy. -/
def pyOrBytes (a dflt : Option (List Nat)) : Option (List Nat) :=
  match a with
  | some k => if k.isEmpty then dflt else some k
  | none => dflt

/-- Python truthiness `partition or self.partition` on optional ints: `None`
and `0` are falsy. -/
def pyOrOptInt (a dflt : Option Int) : Option Int :=
  match a with
  | some n => if n = 0 then dflt else some n
  | none => dflt

/-- Per-publisher defaults stored by confluent `DefaultPublisher.__init__`
(src/faststream/confluent/publisher/usecase.py, lines 30-41 and 74-78):
`self.headers` is `base_configs.headers or {}`. -/
structure ConfluentPublisherState where
  topic : String
  partition : Option Int
  replyTo : String
  headers : PyDict
  key : Option (List Nat)
deriving DecidableEq, Repr

/-- The `KafkaPublishCommand` fields built by a publish call
(src/faststream/confluent/publisher/usecase.py). -/
structure KafkaPublishCommand where
  destination : String
  key : Option (List Nat)
  partition : Option Int
  replyTo : String
  headers : PyDict
  correlationId : String
  noConfirm : Bool
deriving DecidableEq, Repr

/-- Embedding of confluent `DefaultPublisher.publish`
(src/faststream/confluent/publisher/usecase.py, lines 80-106). Every
defaulting uses Python truthiness (`or`); the headers of the command are
`self.headers | (headers or {})`; the correlation id is
`correlation_id or gen_cor_id()`, where `gen_cor_id()` (from
faststream.message, not under src/) is modelled by the `freshId` argument. -/
def confluentPublish (pub : ConfluentPublisherState) (topic : String)
    (key : Option (List Nat)) (partition : Option Int)
    (headers : Option PyDict) (correlationId : Option String)
    (replyTo : String) (noConfirm : Bool) (freshId : String) :
    KafkaPublishCommand :=
  { destination := pyOrStr topic pub.topic
  , key := pyOrBytes key pub.key
  , partition := pyOrOptInt partition pub.partition
  , replyTo := pyOrStr replyTo pub.replyTo
  , headers := pyDictMerge pub.headers (headers.getD [])
  , correlationId := pyOrOptStr correlationId freshId
  , noConfirm := noConfirm }

/-- Embedding of confluent `BatchPublisher.publish`
(src/faststream/confluent/publisher/usecase.py, lines 152-178): identical
command construction except that `key` is fixed to `None` and there is no
per-call key parameter. -/
def confluentBatchPublish (pub : ConfluentPublisherState) (topic : String)
    (partition : Option Int) (headers : Option PyDict)
    (correlationId : Option String) (replyTo : String) (noConfirm : Bool)
    (freshId : String) : KafkaPublishCommand :=
  { destination := pyOrStr topic pub.topic
  , key := none
  , partition := pyOrOptInt partition pub.partition
  , replyTo := pyOrStr replyTo pub.replyTo
  , headers := pyDictMerge pub.headers (headers.getD [])
  , correlationId := pyOrOptStr correlationId freshId
  , noConfirm := noConfirm }

/-- The fields of `RedisSubscriberBaseConfigs` that the redis list subscriber
constructors read or overwrite
(src/faststream/redis/subscriber/usecases/list_subscriber.py). -/
structure RedisSubscriberBaseConfigs where
  ackPolicy : AckPolicy
  noReply : Bool
deriving DecidableEq, Repr

/-- Which parser pair a redis list subscriber constructor installs as the
default parser/decoder. -/
inductive RedisListParserKind where
  | singleList
  | batchList
deriving DecidableEq, Repr

/-- Observable result of constructing a redis list subscriber: the (possibly
rewritten) base configs, the installed parser kind and the list name. -/
structure RedisListSubscriberState where
  configs : RedisSubscriberBaseConfigs
  parserKind : RedisListParserKind
  listName : String
deriving DecidableEq, Repr

/-- Embedding of redis `ListSubscriber.__init__`
(src/faststream/redis/subscriber/usecases/list_subscriber.py, lines 167-175):
installs the single-message list parser and unconditionally assigns
`base_configs.ack_policy = AckPolicy.DO_NOTHING` before delegating to the
parent constructor. -/
def redisListSubscriberInit (cfg : RedisSubscriberBaseConfigs)
    (listName : String) : RedisListSubscriberState :=
  { configs := { cfg with ackPolicy := AckPolicy.doNothing }
  , parserKind := RedisListParserKind.singleList
  , listName := listName }

/-- Embedding of redis `BatchListSubscriber.__init__`
(src/faststream/redis/subscriber/usecases/list_subscriber.py, lines 195-206):
installs the batch list parser and unconditionally assigns
`base_configs.ack_policy = AckPolicy.DO_NOTHING`. -/
def redisBatchListSubscriberInit (cfg : RedisSubscriberBaseConfigs)
    (listName : String) : RedisListSubscriberState :=
  { configs := { cfg with ackPolicy := AckPolicy.doNothing }
  , parserKind := RedisListParserKind.batchList
  , listName := listName }

/-- Embedding of redis `ConcurrentListSubscriber.__init__`
(src/faststream/redis/subscriber/usecases/list_subscriber.py, lines 227-241):
it forwards everything to `ListSubscriber.__init__` (which performs the
ack-policy overwrite); `maxWorkers` only sizes the worker pool. -/
def redisConcurrentListSubscriberInit (cfg : RedisSubscriberBaseConfigs)
    (listName : String) (maxWorkers : Nat) : RedisListSubscriberState :=
  let _ := maxWorkers
  redisListSubscriberInit cfg listName

/-- Outcome of running the user handler on one envelope. -/
inductive HandlerOutcome where
  | success
  | failure
deriving DecidableEq, Repr

/-- An acknowledgment primitive invocation, or the absence of one. -/
inductive AckAction where
  | ack
  | nack
  | noop
deriving DecidableEq, Repr

/-- Modelled from the spec: the Ack Policy Engine pre-handler hook of
section 4.2 (the acknowledgement middleware, faststream/middlewares, is not
under src/). `AckFirst` acknowledges before the handler runs; every other
policy does nothing before the handler. -/
def ackPreHandler : AckPolicy → AckAction
  | AckPolicy.ackFirst => AckAction.ack
  | _ => AckAction.noop

/-- Modelled from the spec: the Ack Policy Engine post-handler hook of
section 4.2. `RejectOnError` acknowledges on handler success and negatively
acknowledges on handler failure; `AckFirst`, `ManualAck` and `DoNothing` do
nothing after the handler. -/
def ackPostHandler : AckPolicy → HandlerOutcome → AckAction
  | AckPolicy.rejectOnError, HandlerOutcome.success => AckAction.ack
  | AckPolicy.rejectOnError, HandlerOutcome.failure => AckAction.nack
  | _, _ => AckAction.noop

/-- Embedding of the parser-configuration flag chosen by NATS
`CoreSubscriber.__init__`
(src/faststream/nats/subscriber/usecases/core_subscriber.py, lines 38-41):
`NatsParser(is_ack_disabled=base_configs.ack_policy is not
AckPolicy.DO_NOTHING)`. -/
def natsParserIsAckDisabled (p : AckPolicy) : Bool :=
  decide (p ≠ AckPolicy.doNothing)

/-- Embedding of the parser-configuration flag chosen by confluent
`DefaultSubscriber.__init__`
(src/faststream/confluent/subscriber/usecase.py, lines 210-219):
`AsyncConfluentParser(is_manual=ack_policy is not AckPolicy.ACK_FIRST)`. -/
def confluentParserIsManual (p : AckPolicy) : Bool :=
  decide (p ≠ AckPolicy.ackFirst)

/-- Modelled from the spec: the acknowledgment primitives invoked while
processing one envelope (section 4.1 step 4 and the section 4.2 table). The
bodies of `NatsParser` and `AsyncConfluentParser` are not under src/; per
section 4.4 the parser only parses and decodes, so the parser-configuration
flag `parserFlag` (the value assigned in the subscriber constructors) takes no
part in the acknowledgment decision, which is a pure function of policy and
handler outcome. -/
def envelopeAckPrimitives (p : AckPolicy) (parserFlag : Bool)
    (outcome : HandlerOutcome) : List AckAction :=
  let _ := parserFlag
  (ackPreHandler p :: ackPostHandler p outcome :: []).filter
    (fun a => decide (a ≠ AckAction.noop))

/-- Variant class the confluent factory selects for given `batch` and
`max_workers` arguments. -/
def confluentVariantFor (batch : Bool) (maxWorkers : Nat) : SubscriberVariant :=
  if batch then SubscriberVariant.batchSub
  else if maxWorkers > 1 then SubscriberVariant.concurrentSub
  else SubscriberVariant.defaultSub

end FastStream
namespace FastStream

theorem str_empty_append (s : String) : "" ++ s = s := by
  cases s
  rfl

theorem str_two_append (s : String) : "b" ++ ("a" ++ s) = "ba" ++ s := by
  cases s
  rfl

theorem confluentConsume_transient_script {α : Type} (K : Nat) (m : α) :
    ∀ c : Bool,
      confluentConsume
        (List.replicate K ConfluentFetch.kafkaException ++ [ConfluentFetch.msg m]) c
        = ⟨List.replicate K (LoopEvent.sleep 5) ++ [LoopEvent.deliver m],
           LoopExit.fetchesExhausted, true⟩ := by
  induction K with
  | zero => intro c; rfl
  | succ K ih =>
    intro c
    simp [List.replicate_succ, confluentConsume, ih false]

theorem kafkaConsume_transient_script {α : Type} (K : Nat) (m : α) :
    ∀ c : Bool,
      kafkaConsume
        (List.replicate K KafkaFetch.kafkaError ++ [KafkaFetch.msg m]) c
        = ⟨List.replicate K (LoopEvent.sleep 5) ++ [LoopEvent.deliver m],
           LoopExit.fetchesExhausted, true⟩ := by
  induction K with
  | zero => intro c; rfl
  | succ K ih =>
    intro c
    simp [List.replicate_succ, kafkaConsume, ih false]

theorem confluentConsume_errs_degraded {α : Type} (K : Nat) :
    ∀ c : Bool,
      (confluentConsume
        (List.replicate (K + 1) (ConfluentFetch.kafkaException : ConfluentFetch α)) c).connected
        = false := by
  induction K with
  | zero => intro c; rfl
  | succ K ih =>
    intro c
    simp only [List.replicate_succ, confluentConsume]
    exact ih false

theorem kafkaConsume_errs_degraded {α : Type} (K : Nat) :
    ∀ c : Bool,
      (kafkaConsume
        (List.replicate (K + 1) (KafkaFetch.kafkaError : KafkaFetch α)) c).connected
        = false := by
  induction K with
  | zero => intro c; rfl
  | succ K ih =>
    intro c
    simp only [List.replicate_succ, kafkaConsume]
    exact ih false

theorem kafkaConsume_terminal {α : Type} (pre : List (KafkaFetch α)) :
    ∀ (rest : List (KafkaFetch α)) (c : Bool),
      pre.all kafkaFetchBenign = true →
      kafkaConsume (pre ++ KafkaFetch.consumerStopped :: rest) c
        = ⟨(kafkaConsume pre c).events, LoopExit.returned,
           (kafkaConsume pre c).connected⟩ := by
  induction pre with
  | nil => intro rest c _; rfl
  | cons p pre ih =>
    intro rest c h
    rw [List.all_cons, Bool.and_eq_true] at h
    cases p with
    | msg m => simp [kafkaConsume, ih rest true h.2]
    | emptyFetch => simp [kafkaConsume, ih rest true h.2]
    | kafkaError => simp [kafkaConsume, ih rest false h.2]
    | consumerStopped => exact absurd h.1 Bool.false_ne_true
    | otherError => exact absurd h.1 Bool.false_ne_true

end FastStream

namespace FastStream

theorem lookupKey_nil (k : String) : lookupKey [] k = none := rfl

theorem lookupKey_cons (p : String × String) (d : PyDict) (k : String) :
    lookupKey (p :: d) k = if p.1 = k then some p.2 else lookupKey d k := by
  by_cases h : p.1 = k <;> simp [lookupKey, List.find?, h]

theorem lookupKey_append (x y : PyDict) (k : String) :
    lookupKey (x ++ y) k =
      match lookupKey x k with
      | some v => some v
      | none => lookupKey y k := by
  induction x with
  | nil => simp [lookupKey_nil]
  | cons p x ih =>
    rw [List.cons_append, lookupKey_cons, lookupKey_cons]
    by_cases h : p.1 = k <;> simp [h, ih]

theorem lookupKey_map_patch (a b : PyDict) (k : String) :
    lookupKey (a.map (fun p =>
      match lookupKey b p.1 with
      | some v => (p.1, v)
      | none => p)) k =
      match lookupKey a k with
      | some v => some ((lookupKey b k).getD v)
      | none => none := by
  induction a with
  | nil => simp [lookupKey_nil]
  | cons p a ih =>
    rw [List.map_cons, lookupKey_cons]
    by_cases h : p.1 = k
    · subst h
      cases hb : lookupKey b p.1 <;> simp [lookupKey_cons, hb]
    · cases hb : lookupKey b p.1 <;> simp [lookupKey_cons, h, hb, ih]

theorem lookupKey_filter_none (a b : PyDict) (k : String)
    (h : lookupKey a k = none) :
    lookupKey (b.filter (fun p => (lookupKey a p.1).isNone)) k = lookupKey b k := by
  induction b with
  | nil => rfl
  | cons q b ih =>
    rw [lookupKey_cons]
    by_cases hq : q.1 = k
    · subst hq
      simp [List.filter, h, lookupKey_cons]
    · cases hfil : (lookupKey a q.1).isNone <;>
        simp [List.filter, hfil, lookupKey_cons, hq, ih]

theorem lookupKey_filter_some (a b : PyDict) (k : String) (v : String)
    (h : lookupKey a k = some v) :
    lookupKey (b.filter (fun p => (lookupKey a p.1).isNone)) k = none := by
  induction b with
  | nil => rfl
  | cons q b ih =>
    by_cases hq : q.1 = k
    · subst hq
      simp [List.filter, h, ih]
    · cases hfil : (lookupKey a q.1).isNone <;>
        simp [List.filter, hfil, lookupKey_cons, hq, ih]

theorem lookupKey_pyDictMerge (a b : PyDict) (k : String) :
    lookupKey (pyDictMerge a b) k =
      match lookupKey b k with
      | some v => some v
      | none => lookupKey a k := by
  rw [pyDictMerge, lookupKey_append, lookupKey_map_patch]
  cases ha : lookupKey a k with
  | none =>
    rw [lookupKey_filter_none a b k ha]
    cases hb : lookupKey b k <;> simp
  | some v =>
    rw [lookupKey_filter_some a b k v ha]
    cases hb : lookupKey b k <;> simp [hb]

end FastStream

namespace FastStream

/-- C1: for every run of the consumption loop in which the fetch step raises a
transient broker error for the first K calls and then succeeds, the loop
enters the degraded state (`connected = false`), sleeps the fixed backoff
interval of 5 time units after each failed fetch (exactly K sleeps), retries
without terminating (the run neither returns nor raises), and ultimately
delivers the fetched message to the handler. Proved for both the confluent
and the kafka consumption loops. -/
theorem c1_transient_backoff_retry_delivery (α : Type) (K : Nat) (m : α) :
    confluentConsume
      (List.replicate K ConfluentFetch.kafkaException ++ [ConfluentFetch.msg m]) true
      = ⟨List.replicate K (LoopEvent.sleep 5) ++ [LoopEvent.deliver m],
         LoopExit.fetchesExhausted, true⟩
  ∧ kafkaConsume
      (List.replicate K KafkaFetch.kafkaError ++ [KafkaFetch.msg m]) true
      = ⟨List.replicate K (LoopEvent.sleep 5) ++ [LoopEvent.deliver m],
         LoopExit.fetchesExhausted, true⟩
  ∧ (0 < K →
      (confluentConsume
        (List.replicate K (ConfluentFetch.kafkaException : ConfluentFetch α)) true).connected
        = false
    ∧ (kafkaConsume
        (List.replicate K (KafkaFetch.kafkaError : KafkaFetch α)) true).connected
        = false) := by
  refine ⟨confluentConsume_transient_script K m true,
    kafkaConsume_transient_script K m true, ?_⟩
  intro hK
  obtain ⟨K, rfl⟩ : ∃ J, K = J + 1 := ⟨K - 1, (Nat.succ_pred_eq_of_pos hK).symm⟩
  exact ⟨confluentConsume_errs_degraded K true, kafkaConsume_errs_degraded K true⟩

/-- Witness for C1 at K = 3 failures followed by message 7. -/
theorem c1_transient_backoff_retry_delivery_witness :
    (confluentConsume
      (List.replicate 3 ConfluentFetch.kafkaException ++ [ConfluentFetch.msg (7 : Nat)]) true
      = ⟨List.replicate 3 (LoopEvent.sleep 5) ++ [LoopEvent.deliver 7],
         LoopExit.fetchesExhausted, true⟩)
  ∧ (confluentConsume
      (List.replicate 3 (ConfluentFetch.kafkaException : ConfluentFetch Nat)) true).connected
      = false := by
  have h := c1_transient_backoff_retry_delivery Nat 3 7
  exact ⟨h.1, (h.2.2 (by decide)).1⟩

/-- C2: a terminal broker error (the kafka client raises
`ConsumerStoppedError`, meaning it reports itself stopped) makes the
consumption loop return cleanly after the events of the preceding benign
iterations; the run ends in `returned`, not `raised`, so no exception
propagates to the owner of the subscriber. -/
theorem c2_terminal_error_clean_exit (α : Type) (pre rest : List (KafkaFetch α))
    (c : Bool) (h : pre.all kafkaFetchBenign = true) :
    kafkaConsume (pre ++ KafkaFetch.consumerStopped :: rest) c
      = ⟨(kafkaConsume pre c).events, LoopExit.returned, (kafkaConsume pre c).connected⟩
  ∧ (kafkaConsume (pre ++ KafkaFetch.consumerStopped :: rest) c).exit ≠ LoopExit.raised := by
  have heq := kafkaConsume_terminal pre rest c h
  refine ⟨heq, ?_⟩
  rw [heq]
  intro hh
  exact LoopExit.noConfusion hh

/-- Witness for C2: one delivery and one backoff before the terminal error;
fetch outcomes after the terminal error are never consumed. -/
theorem c2_terminal_error_clean_exit_witness :
    kafkaConsume
      ([KafkaFetch.msg (1 : Nat), KafkaFetch.kafkaError, KafkaFetch.emptyFetch]
        ++ KafkaFetch.consumerStopped :: [KafkaFetch.msg 2]) true
      = ⟨[LoopEvent.deliver 1, LoopEvent.sleep 5], LoopExit.returned, true⟩ := by
  have h := (c2_terminal_error_clean_exit Nat
    [KafkaFetch.msg 1, KafkaFetch.kafkaError, KafkaFetch.emptyFetch]
    [KafkaFetch.msg 2] true (by decide)).1
  rw [h]
  decide

/-- C3, code evaluated at the failing input: the confluent factory guard at
src/faststream/confluent/subscriber/factory.py line 240 compares
`AckPolicy.ACK_FIRST` with itself instead of the resolved `ack_policy`, so a
fan-out configuration (`max_workers > 1`) combined with a manual or
error-rejecting ack policy is accepted and a concurrent subscriber is built,
instead of raising the "Max workers not work with manual commit mode"
`SetupError`. -/
theorem c3_max_workers_manual_policy_accepted :
    confluentCreateSubscriber false none none (some AckPolicy.rejectOnError) 2
      = Except.ok ⟨AckPolicy.rejectOnError, false, SubscriberVariant.concurrentSub⟩
  ∧ confluentCreateSubscriber false none none (some AckPolicy.manualAck) 8
      = Except.ok ⟨AckPolicy.manualAck, false, SubscriberVariant.concurrentSub⟩ := by
  exact ⟨rfl, rfl⟩

end FastStream

namespace FastStream

theorem redisPollLoop_replicate_none (α : Type) (n : Nat) :
    redisPollLoop (List.replicate n (none : Option α)) = none := by
  induction n with
  | zero => rfl
  | succ n ih => simp [List.replicate_succ, redisPollLoop, ih]

theorem redisPollLoop_first_some (α : Type) (n : Nat) (m : α) (rest : List (Option α)) :
    redisPollLoop (List.replicate n none ++ some m :: rest) = some m := by
  induction n with
  | zero => rfl
  | succ n ih => simp [List.replicate_succ, redisPollLoop, ih]

/-- C4: with ack policy `DoNothing`, processing an envelope invokes no
acknowledgment primitive (neither ack nor nack) for either handler outcome;
under every other policy the acknowledgment decision is the section 4.2 table
entry, unaffected by the parser-configuration flag chosen in the subscriber
constructors (`is_ack_disabled` for NATS, `is_manual` for confluent). -/
theorem c4_do_nothing_no_ack_and_parser_independence :
    (∀ (flag : Bool) (o : HandlerOutcome),
        envelopeAckPrimitives AckPolicy.doNothing flag o = [])
  ∧ (∀ (p : AckPolicy) (f g : Bool) (o : HandlerOutcome),
        p ≠ AckPolicy.doNothing →
        envelopeAckPrimitives p f o = envelopeAckPrimitives p g o)
  ∧ (∀ o : HandlerOutcome,
        envelopeAckPrimitives AckPolicy.rejectOnError
          (natsParserIsAckDisabled AckPolicy.rejectOnError) o
          = [if o = HandlerOutcome.success then AckAction.ack else AckAction.nack]
      ∧ envelopeAckPrimitives AckPolicy.rejectOnError
          (confluentParserIsManual AckPolicy.rejectOnError) o
          = [if o = HandlerOutcome.success then AckAction.ack else AckAction.nack]) := by
  refine ⟨?_, ?_, ?_⟩
  · intro flag o
    cases o <;> rfl
  · intro p f g o hp
    rfl
  · intro o
    cases o <;> exact ⟨rfl, rfl⟩

/-- Witness for C4 at policy `RejectOnError` and both flag values. -/
theorem c4_do_nothing_no_ack_and_parser_independence_witness :
    envelopeAckPrimitives AckPolicy.rejectOnError true HandlerOutcome.failure
      = envelopeAckPrimitives AckPolicy.rejectOnError false HandlerOutcome.failure :=
  c4_do_nothing_no_ack_and_parser_independence.2.1
    AckPolicy.rejectOnError true false HandlerOutcome.failure (by decide)

/-- C5: on a subscriber with registered handlers, `get_one` fails at call
time with the handlers-registered assertion (creation and handler
registration themselves raise nothing: none of the factory validators embedded
above inspects the handler list); without handlers, `get_one` fetches from
the broker client, decodes, and returns the envelope, or an empty result when
the fetch produced nothing. Shown for the confluent, NATS core and redis list
subscribers. -/
theorem c5_get_one_call_time_exclusivity :
    (∀ (η α β : Type) (calls : List η) (fetched : Option α) (p : α → β),
        calls ≠ [] →
        confluentGetOne calls (some fetched) p
          = Except.error GetOneError.handlersRegistered)
  ∧ (∀ (α β : Type) (fetched : Option α) (p : α → β),
        confluentGetOne ([] : List Unit) (some fetched) p = Except.ok (fetched.map p))
  ∧ (∀ (η α β : Type) (calls : List η) (nextMsg : Option α) (p : α → β),
        calls ≠ [] →
        natsCoreGetOne calls nextMsg p = Except.error GetOneError.handlersRegistered)
  ∧ (∀ (α β : Type) (nextMsg : Option α) (p : α → β),
        natsCoreGetOne ([] : List Unit) nextMsg p = Except.ok (nextMsg.map p))
  ∧ (∀ (η β : Type) (calls : List η) (polls : List (Option (List Nat)))
        (p : List Nat → β),
        calls ≠ [] →
        redisListGetOne calls (some ()) polls p
          = Except.error GetOneError.handlersRegistered)
  ∧ (∀ (β : Type) (n : Nat) (p : List Nat → β),
        redisListGetOne ([] : List Unit) (some ()) (List.replicate n none) p
          = Except.ok none)
  ∧ (∀ (β : Type) (raw : List Nat) (n : Nat) (rest : List (Option (List Nat)))
        (p : List Nat → β),
        raw ≠ [] →
        redisListGetOne ([] : List Unit) (some ())
          (List.replicate n none ++ some raw :: rest) p
          = Except.ok (some (p raw))) := by
  refine ⟨?_, ?_, ?_, ?_, ?_, ?_, ?_⟩
  · intro η α β calls fetched p hc
    cases calls with
    | nil => exact absurd rfl hc
    | cons a l => rfl
  · intro α β fetched p
    rfl
  · intro η α β calls nextMsg p hc
    cases calls with
    | nil => exact absurd rfl hc
    | cons a l => rfl
  · intro α β nextMsg p
    rfl
  · intro η β calls polls p hc
    cases calls with
    | nil => exact absurd rfl hc
    | cons a l => rfl
  · intro β n p
    simp [redisListGetOne, redisPollLoop_replicate_none]
  · intro β raw n rest p hr
    cases raw with
    | nil => exact absurd rfl hr
    | cons x xs => simp [redisListGetOne, redisPollLoop_first_some]

/-- Witness for C5 with one registered handler and with none. -/
theorem c5_get_one_call_time_exclusivity_witness :
    confluentGetOne [0] (some (some 10)) (fun x : Nat => x + 1)
      = Except.error GetOneError.handlersRegistered
  ∧ confluentGetOne ([] : List Unit) (some (some 10)) (fun x : Nat => x + 1)
      = Except.ok (some 11)
  ∧ redisListGetOne ([] : List Unit) (some ())
      [none, some [3, 4]] (fun raw => raw.length) = Except.ok (some 2) := by
  refine ⟨c5_get_one_call_time_exclusivity.1 Nat Nat Nat [0] (some 10) _ (by decide),
    c5_get_one_call_time_exclusivity.2.1 Nat Nat (some 10) _, ?_⟩
  have h := c5_get_one_call_time_exclusivity.2.2.2.2.2.2 Nat [3, 4] 1 []
    (fun raw => raw.length) (by decide)
  simpa using h

/-- C6: for each backend, rewriting declared destination names with the empty
prefix is the identity, and rewriting with "a" then "b" prepends "ba" to each
original name, i.e. composes left-to-right in call order. -/
theorem c6_add_prefix_identity_and_composition :
    (∀ s : ConfluentDestinations, addPrefixConfluent "" s = s)
  ∧ (∀ s : ConfluentDestinations,
      addPrefixConfluent "b" (addPrefixConfluent "a" s) = addPrefixConfluent "ba" s)
  ∧ (∀ s : KafkaDestinations, addPrefixKafka "" s = s)
  ∧ (∀ s : KafkaDestinations,
      addPrefixKafka "b" (addPrefixKafka "a" s) = addPrefixKafka "ba" s)
  ∧ (∀ n : String, addPrefixRedisList "" n = n)
  ∧ (∀ n : String,
      addPrefixRedisList "b" (addPrefixRedisList "a" n) = addPrefixRedisList "ba" n) := by
  refine ⟨?_, ?_, ?_, ?_, str_empty_append, fun n => str_two_append n⟩
  · intro s
    cases s with
    | mk topics partitions => simp [addPrefixConfluent, str_empty_append]
  · intro s
    cases s with
    | mk topics partitions =>
      simp [addPrefixConfluent, List.map_map, Function.comp, str_two_append]
  · intro s
    cases s with
    | mk topics partitions => simp [addPrefixKafka, str_empty_append]
  · intro s
    cases s with
    | mk topics partitions =>
      simp [addPrefixKafka, List.map_map, Function.comp, str_two_append]

end FastStream

namespace FastStream

/-- C7 counterexample: a publish call that supplies the correlation id
explicitly as the empty string (so a caller-supplied id is present) yields a
command whose correlation id is the freshly generated one, not the supplied
one, because the source uses Python truthiness
(`correlation_id or gen_cor_id()`). -/
theorem c7_publish_empty_correlation_counterexample :
    (some "" : Option String).isSome = true
  ∧ (confluentPublish ⟨"topic1", none, "", [], none⟩ "" none none none (some "") "" false
      "generated0").correlationId = "generated0"
  ∧ ("generated0" : String) ≠ "" := by
  refine ⟨rfl, rfl, by decide⟩

/-- C7 (amended): the headers of the built publish command are the default
headers merged with the caller headers, caller winning on every conflicting
key; the correlation id equals the caller-supplied one when a non-empty one
is supplied, and the freshly generated one otherwise (when it is absent or
the empty string). Shown for both the default and the batch publisher. -/
theorem c7_publish_header_merge_and_correlation (pub : ConfluentPublisherState)
    (topic : String) (key : Option (List Nat)) (partition : Option Int)
    (headers : Option PyDict) (cid : Option String) (replyTo : String)
    (nc : Bool) (freshId : String) :
    (∀ k : String,
      lookupKey (confluentPublish pub topic key partition headers cid
          replyTo nc freshId).headers k
        = match lookupKey (headers.getD []) k with
          | some v => some v
          | none => lookupKey pub.headers k)
  ∧ (∀ c : String, cid = some c → c ≠ "" →
      (confluentPublish pub topic key partition headers cid
        replyTo nc freshId).correlationId = c)
  ∧ (cid = none ∨ cid = some "" →
      (confluentPublish pub topic key partition headers cid
        replyTo nc freshId).correlationId = freshId)
  ∧ (∀ k : String,
      lookupKey (confluentBatchPublish pub topic partition headers cid
          replyTo nc freshId).headers k
        = match lookupKey (headers.getD []) k with
          | some v => some v
          | none => lookupKey pub.headers k)
  ∧ (∀ c : String, cid = some c → c ≠ "" →
      (confluentBatchPublish pub topic partition headers cid
        replyTo nc freshId).correlationId = c)
  ∧ (cid = none ∨ cid = some "" →
      (confluentBatchPublish pub topic partition headers cid
        replyTo nc freshId).correlationId = freshId) := by
  refine ⟨?_, ?_, ?_, ?_, ?_, ?_⟩
  · intro k
    exact lookupKey_pyDictMerge pub.headers (headers.getD []) k
  · intro c hc hne
    subst hc
    simp [confluentPublish, pyOrOptStr, hne]
  · intro hc
    rcases hc with h | h <;> subst h <;> simp [confluentPublish, pyOrOptStr]
  · intro k
    exact lookupKey_pyDictMerge pub.headers (headers.getD []) k
  · intro c hc hne
    subst hc
    simp [confluentBatchPublish, pyOrOptStr, hne]
  · intro hc
    rcases hc with h | h <;> subst h <;> simp [confluentBatchPublish, pyOrOptStr]

/-- Witness for C7: conflicting key "b" takes the caller value, key "a" keeps
the default value, a non-empty caller correlation id is used as is, and with
no caller correlation id the generated one is used. -/
theorem c7_publish_header_merge_and_correlation_witness :
    lookupKey ((confluentPublish ⟨"t", none, "", [("a", "1"), ("b", "2")], none⟩ ""
      none none (some [("b", "3"), ("c", "4")]) (some "cid1") "" false "f0").headers) "b"
      = some "3"
  ∧ lookupKey ((confluentPublish ⟨"t", none, "", [("a", "1"), ("b", "2")], none⟩ ""
      none none (some [("b", "3"), ("c", "4")]) (some "cid1") "" false "f0").headers) "a"
      = some "1"
  ∧ (confluentPublish ⟨"t", none, "", [("a", "1"), ("b", "2")], none⟩ ""
      none none (some [("b", "3"), ("c", "4")]) (some "cid1") "" false "f0").correlationId
      = "cid1"
  ∧ (confluentPublish ⟨"t", none, "", [], none⟩ "" none none none none "" false
      "f0").correlationId = "f0" := by
  have h := c7_publish_header_merge_and_correlation
    ⟨"t", none, "", [("a", "1"), ("b", "2")], none⟩ ""
    none none (some [("b", "3"), ("c", "4")]) (some "cid1") "" false "f0"
  have h2 := c7_publish_header_merge_and_correlation
    ⟨"t", none, "", [], none⟩ "" none none none none "" false "f0"
  refine ⟨?_, ?_, h.2.1 "cid1" rfl (by decide), h2.2.2.1 (Or.inl rfl)⟩
  · rw [h.1 "b"]
    decide
  · rw [h.1 "a"]
    decide

/-- C8: creating a kafka publisher with `batch=True` and a non-empty
per-message key raises the setup error before any publisher (hence any send)
exists; with `batch=False` every key value is accepted. -/
theorem c8_batch_publisher_key_rejected :
    (∀ k : List Nat, k ≠ [] →
        kafkaCreatePublisher true (some k) = Except.error SetupError.batchPublisherKey)
  ∧ (∀ key : Option (List Nat),
        kafkaCreatePublisher false key = Except.ok PublisherVariant.defaultPub) := by
  constructor
  · intro k hk
    cases k with
    | nil => exact absurd rfl hk
    | cons x xs => rfl
  · intro key
    rfl

/-- Witness for C8 at key `[1]` for batch and `[1, 2]` for non-batch. -/
theorem c8_batch_publisher_key_rejected_witness :
    kafkaCreatePublisher true (some [1]) = Except.error SetupError.batchPublisherKey
  ∧ kafkaCreatePublisher false (some [1, 2]) = Except.ok PublisherVariant.defaultPub :=
  ⟨c8_batch_publisher_key_rejected.1 [1] (by decide),
   c8_batch_publisher_key_rejected.2 (some [1, 2])⟩

/-- C9: supplying a deprecated boolean toggle (`auto_commit` or `no_ack`, not
the unset sentinel) together with an explicit ack policy makes subscriber
creation raise a setup error (confluent factory and rabbit validator);
supplying a toggle alone resolves, at setup time, to one of the four named
policies (with `ACK_FIRST` further converted to backend auto-commit plus
`DO_NOTHING`). -/
theorem c9_deprecated_toggles_conflict_and_mapping :
    (∀ (batch : Bool) (ap : AckPolicy) (ac : Bool) (na : Unset Bool) (mw : Nat),
        confluentCreateSubscriber batch (some ac) na (some ap) mw
          = Except.error SetupError.autoCommitAndAckPolicy)
  ∧ (∀ (batch : Bool) (ap : AckPolicy) (na : Bool) (mw : Nat),
        confluentCreateSubscriber batch none (some na) (some ap) mw
          = Except.error SetupError.noAckAndAckPolicy)
  ∧ (∀ (ap : AckPolicy) (na : Bool),
        rabbitValidateInputForMisconfigure (some ap) (some na)
          = Except.error SetupError.noAckAndAckPolicy)
  ∧ (∀ (batch : Bool) (mw : Nat),
        confluentCreateSubscriber batch (some true) none none mw
          = Except.ok ⟨AckPolicy.doNothing, true, confluentVariantFor batch mw⟩
      ∧ confluentCreateSubscriber batch (some false) none none mw
          = Except.ok ⟨AckPolicy.rejectOnError, false, confluentVariantFor batch mw⟩
      ∧ confluentCreateSubscriber batch none (some true) none mw
          = Except.ok ⟨AckPolicy.doNothing, false, confluentVariantFor batch mw⟩
      ∧ confluentCreateSubscriber batch none (some false) none mw
          = Except.ok ⟨AckPolicy.doNothing, true, confluentVariantFor batch mw⟩) := by
  refine ⟨?_, ?_, ?_, ?_⟩
  · intro batch ap ac na mw
    rfl
  · intro batch ap na mw
    rfl
  · intro ap na
    rfl
  · intro batch mw
    exact ⟨rfl, rfl, rfl, rfl⟩

/-- Witness for C9 at concrete toggle and policy values. -/
theorem c9_deprecated_toggles_conflict_and_mapping_witness :
    confluentCreateSubscriber false (some true) none (some AckPolicy.manualAck) 1
      = Except.error SetupError.autoCommitAndAckPolicy
  ∧ confluentCreateSubscriber false none (some true) (some AckPolicy.ackFirst) 1
      = Except.error SetupError.noAckAndAckPolicy
  ∧ rabbitValidateInputForMisconfigure (some AckPolicy.doNothing) (some false)
      = Except.error SetupError.noAckAndAckPolicy
  ∧ confluentCreateSubscriber false (some false) none none 1
      = Except.ok ⟨AckPolicy.rejectOnError, false, SubscriberVariant.defaultSub⟩ := by
  have h := c9_deprecated_toggles_conflict_and_mapping
  refine ⟨h.1 false AckPolicy.manualAck true none 1,
    h.2.1 false AckPolicy.ackFirst true 1,
    h.2.2.1 AckPolicy.doNothing false, ?_⟩
  have h4 := (h.2.2.2 false 1).2.1
  simpa [confluentVariantFor] using h4

/-- C10: all three redis list subscriber constructors (single, batch, and
concurrent, which delegates to the single one) unconditionally overwrite the
configured acknowledgment policy with `DoNothing`, whatever the caller
configured; the other configuration fields are kept. -/
theorem c10_redis_list_ack_policy_overwritten :
    ∀ (cfg : RedisSubscriberBaseConfigs) (n : String) (mw : Nat),
      (redisListSubscriberInit cfg n).configs.ackPolicy = AckPolicy.doNothing
    ∧ (redisBatchListSubscriberInit cfg n).configs.ackPolicy = AckPolicy.doNothing
    ∧ (redisConcurrentListSubscriberInit cfg n mw).configs.ackPolicy = AckPolicy.doNothing
    ∧ (redisListSubscriberInit cfg n).configs.noReply = cfg.noReply := by
  intro cfg n mw
  exact ⟨rfl, rfl, rfl, rfl⟩

end FastStream
